import Mathlib

/-!
Verification of the dataset-curation logic of the mic repository
(lens-biophotonics/mic), a shallow embedding of the export pipeline of
notebooks/create_cidre_dset.ipynb together with the Zero-Light-Preserved
correction formula of the illumination corrector (the corrector script itself
is not among the source files, so its formula is modelled from the spec).

Pixel values, the float-valued thresholds and the byte counters are embedded
as rationals; unsigned machine integers as naturals. numpy/pathlib behaviour
that the notebook relies on (np.mean of an empty selection yielding NaN,
np.all truthiness, pathlib suffix extraction, the float64 output dtype of
skimage resize) is modelled where used, with a comment at the definition.
-/

namespace Mic

/-- A 2-D image slice: a list of rows of pixel values. -/
abbrev Img2 := List (List ℚ)

/-- np.size of a 2-D array: the total number of pixels. -/
def npSize (a : Img2) : ℕ := (a.map List.length).sum

/-- np.count_nonzero(a > lvl): the number of pixels strictly greater than
bg_lvl. -/
def countGtLvl (a : Img2) (lvl : ℚ) : ℕ :=
  ((a.map (fun row => (row.filter (fun p => decide (lvl < p))).length)).sum)

/-- a[a != 0]: the nonzero pixels of a slice, flattened. -/
def nonzeroPixels (a : Img2) : List ℚ :=
  (a.map (fun row => row.filter (fun p => decide (p ≠ 0)))).flatten

/-- np.mean of a list of values; none models the NaN numpy produces on an
empty input (a RuntimeWarning, not an exception), and every comparison
against NaN is False. -/
def npMean (l : List ℚ) : Option ℚ :=
  if l.length = 0 then none else some (l.sum / (l.length : ℚ))

/-- np.all over a float array: True iff every entry is nonzero (np.all of an
empty array is True). -/
def npAll (l : List ℚ) : Bool := l.all (fun x => decide (x ≠ 0))

/-- The curator configuration of the notebook: the inclusion criteria and the
output budget of the export-options cell, the z-stride (already reduced to
slices: ceil of z_strd_um / px_sz_z), the forced output width x_shp_out, the
wavelength tuple wv, the objective name and output directory of the I/O cell,
and the skimage resize primitive, treated as an external array transform whose
interpolated pixel values no claim depends on. -/
structure Config where
  bg_lvl : ℚ
  bg_rel_thr : ℚ
  mean_rel_thr : ℚ
  max_dset_size : ℚ
  z_strd : ℕ
  x_shp_out : Option ℕ
  wv : List ℤ
  obj : String
  outdir : String
  resizeFn : Img2 → ℕ → Img2

/-- The inclusion test of the export cell:
np.count_nonzero(slc > bg_lvl) / np.size(slc) > bg_rel_thr
and np.mean(slc[slc != 0]) > mean_rel_thr * img_max.
An all-zero slice makes np.mean return NaN and the second comparison False
(the none branch). -/
def inclTest (cfg : Config) (img_max : ℚ) (a : Img2) : Bool :=
  (decide ((countGtLvl a cfg.bg_lvl : ℚ) / (npSize a : ℚ) > cfg.bg_rel_thr))
    && (match npMean (nonzeroPixels a) with
        | some m => decide (m > cfg.mean_rel_thr * img_max)
        | none => false)

/-- The wavedir construction of the I/O cell: for each channel whose
wavelength is not -1, one output folder outdir / (obj ++ "_" ++ w ++ "nm"),
collected in order into the wavedirs list. Paths are modelled as lists of
components. -/
def mkWavedirs (outdir obj : String) (wv : List ℤ) : List (List String) :=
  (wv.filter (fun w => decide (w ≠ -1))).map
    (fun w => [outdir, obj ++ "_" ++ toString w ++ "nm"])

/-- The export directory layout as the spec words it, for comparison with
mkWavedirs: outdir / objective / wavelength, the wavelength folder nested
under the objective folder. -/
def specWavedirs (outdir obj : String) (wv : List ℤ) : List (List String) :=
  (wv.filter (fun w => decide (w ≠ -1))).map
    (fun w => [outdir, obj, toString w])

/-- Python pathlib suffix of a file name: the trailing ".ext" when the last
dot is neither the first nor the last character, "" otherwise. -/
def pySuffix (name : String) : String :=
  let cs := name.data
  let n := cs.length
  match ((List.range n).filter (fun i => decide (cs.get? i = some '.'))).getLast? with
  | none => ""
  | some i => if 0 < i ∧ i < n - 1 then String.mk (cs.drop i) else ""

/-- file.suffix.lower() in [".tif", ".tiff"]. -/
def isTiffName (name : String) : Bool :=
  (pySuffix name).toLower == ".tif" || (pySuffix name).toLower == ".tiff"

/-- The num_slc initialization of the I/O cell. The filesystem is abstracted
as a map from a directory path to the optional list of its entry names (none
when the folder does not exist yet; the code then creates it and the counter
stays 0). For each channel with w != -1 whose folder exists, the counter
starts at the number of entries whose lower-cased suffix is .tif or .tiff;
sentinel channels keep the zero of np.zeros. -/
def initNumSlc (outdir obj : String) (wv : List ℤ)
    (fs : List String → Option (List String)) : List ℕ :=
  wv.map (fun w =>
    if w ≠ -1 then
      match fs [outdir, obj ++ "_" ++ toString w ++ "nm"] with
      | some files => (files.filter isTiffName).length
      | none => 0
    else 0)

/-- The value of a numpy array variable of the export cell, which may hold a
2-D frame or a 3-D channel-first (C, Y, X) block. -/
inductive PyArr where
  | d2 (a : Img2)
  | d3 (a : List Img2)
deriving DecidableEq

/-- slc[np.newaxis, ...] applied when slc.ndim == 2 (ch_first layout of the
notebook configuration). -/
def addChannelAxis : PyArr → PyArr
  | .d2 a => .d3 [a]
  | .d3 a => .d3 a

/-- slc.shape[0] (ch_ax = 0 for the channel-first layout). -/
def shape0 : PyArr → ℕ
  | .d2 a => a.length
  | .d3 a => a.length

/-- slc[c, :, :]: channel indexing. On a 2-D array this raises IndexError
(too many indices), as does an out-of-range c on a 3-D block. -/
def index3 : PyArr → ℕ → Except String Img2
  | .d3 a, c =>
    match a.get? c with
    | some p => .ok p
    | none => .error "IndexError: index out of range"
  | .d2 _, _ => .error "IndexError: too many indices for 2-D array"

/-- The per-wavelength accumulators of the export cell: the slice counters
num_slc and the byte totals ds_size. -/
structure ExpState where
  num_slc : List ℕ
  ds_size : List ℚ
deriving DecidableEq

/-- One tiff.imwrite call of the export cell: the target path components, the
written pixel data, and the element size in bytes of the written array. -/
structure WriteEvent where
  path : List String
  frame : Img2
  itemsize : ℕ
deriving DecidableEq

/-- The stop check of the export cell as written:
np.all(ds_size) >= max_dset_size. np.all yields a numpy boolean, which the
comparison treats as the number 1 (True) or 0 (False). -/
def sizeBreak (ds_size : List ℚ) (max_dset_size : ℚ) : Bool :=
  decide ((if npAll ds_size then (1 : ℚ) else 0) ≥ max_dset_size)

/-- The frame handed to tiff.imwrite together with its element size: when
x_shp_out is set, skimage resize(slc, (slc.shape[0], x_shp_out),
anti_aliasing=True, preserve_range=True) is applied unconditionally, and its
output is float64 (itemsize 8) whatever the input dtype; an untouched slice
keeps the stack's element size. -/
def outFrame (cfg : Config) (itemsize : ℕ) (a : Img2) : Img2 × ℕ :=
  match cfg.x_shp_out with
  | some xo => (cfg.resizeFn a xo, 8)
  | none => (a, itemsize)

/-- One iteration of the channel loop of the export cell for channel index c:
the guard wv[c] > 0, the reassignment slc = slc[c, :, :] (which overwrites the
loop variable that held the 3-D block), the inclusion test, the optional
resize, the imwrite to wavedirs[c] / (num_slc[c] ++ ".tiff"), the accumulator
updates, and the stop check. The result carries the new value of the slc
variable, the new accumulators, the writes performed, and whether the channel
loop breaks; an uncaught Python exception is an Except.error. -/
def channelStep (cfg : Config) (itemsize : ℕ) (img_max : ℚ) (c : ℕ)
    (slc : PyArr) (st : ExpState) :
    Except String (PyArr × ExpState × List WriteEvent × Bool) :=
  match cfg.wv.get? c with
  | none => .error "IndexError: tuple index out of range"
  | some w =>
    if 0 < w then
      match index3 slc c with
      | .error e => .error e
      | .ok a =>
        if inclTest cfg img_max a then
          let fr := outFrame cfg itemsize a
          match (mkWavedirs cfg.outdir cfg.obj cfg.wv).get? c with
          | none => .error "IndexError: list index out of range"
          | some wd =>
            let n := st.num_slc.getD c 0
            let ds2 := st.ds_size.set c
              (st.ds_size.getD c 0 + ((fr.2 * npSize fr.1 : ℕ) : ℚ))
            .ok (.d2 a, ⟨st.num_slc.set c (n + 1), ds2⟩,
                 [⟨wd ++ [toString n ++ ".tiff"], fr.1, fr.2⟩],
                 sizeBreak ds2 cfg.max_dset_size)
        else
          .ok (.d2 a, st, [], sizeBreak st.ds_size cfg.max_dset_size)
    else .ok (slc, st, [], false)

/-- The channel loop: for c in range(slc.shape[ch_ax]), the range length fixed
at loop entry. A break ends the loop; an exception aborts it, with the writes
already flushed before the abort staying on record. -/
def channelLoop (cfg : Config) (itemsize : ℕ) (img_max : ℚ) :
    ℕ → ℕ → PyArr → ExpState → ExpState × List WriteEvent × Option String
  | 0, _, _, st => (st, [], none)
  | k + 1, c, slc, st =>
    match channelStep cfg itemsize img_max c slc st with
    | .error e => (st, [], some e)
    | .ok (slc2, st2, ws, brk) =>
      if brk then (st2, ws, none)
      else
        let r := channelLoop cfg itemsize img_max k (c + 1) slc2 st2
        (r.1, ws ++ r.2.1, r.2.2)

/-- One z iteration of the export cell: slc = img[z, ...], the channel-axis
insertion when the slab is 2-D, then the channel loop over
range(slc.shape[0]) starting from c = 0. -/
def zStep (cfg : Config) (itemsize : ℕ) (img_max : ℚ) (slab : PyArr)
    (st : ExpState) : ExpState × List WriteEvent × Option String :=
  let s1 := addChannelAxis slab
  channelLoop cfg itemsize img_max (shape0 s1) 0 s1 st

/-- range(0, n, strd) for strd ≥ 1: the multiples of strd below n. -/
def zIndices (n strd : ℕ) : List ℕ :=
  (List.range n).filter (fun z => decide (z % strd = 0))

/-- One image stack as loaded by tiff.imread: the slabs img[z, ...] for each
z in order, the element size in bytes of the dtype, and np.iinfo(dtype).max. -/
structure Stack where
  slabs : List PyArr
  itemsize : ℕ
  img_max : ℚ

/-- The z loop over the retained z indices of one stack. -/
def zLoop (cfg : Config) (stk : Stack) :
    List ℕ → ExpState → ExpState × List WriteEvent × Option String
  | [], st => (st, [], none)
  | z :: zs, st =>
    match stk.slabs.get? z with
    | none => (st, [], some "IndexError: z out of range")
    | some slab =>
      let r1 := zStep cfg stk.itemsize stk.img_max slab st
      match r1.2.2 with
      | some _ => r1
      | none =>
        let r2 := zLoop cfg stk zs r1.1
        (r2.1, r1.2.1 ++ r2.2.1, r2.2.2)

/-- Process one stack: the z loop over range(0, img.shape[0], z_strd). -/
def stackStep (cfg : Config) (stk : Stack) (st : ExpState) :
    ExpState × List WriteEvent × Option String :=
  zLoop cfg stk (zIndices stk.slabs.length cfg.z_strd) st

/-- The stack loop of the export cell. Each tiff.imread outcome is given as an
Except (a failed read raises); the loop has no exception handler, so the
first error ends the whole run with that error, the remaining stacks
unprocessed, the writes already flushed before the abort staying on record. -/
def stacksLoop (cfg : Config) :
    List (Except String Stack) → ExpState →
      ExpState × List WriteEvent × Option String
  | [], st => (st, [], none)
  | r :: rs, st =>
    match r with
    | .error e => (st, [], some e)
    | .ok stk =>
      let r1 := stackStep cfg stk st
      match r1.2.2 with
      | some _ => r1
      | none =>
        let r2 := stacksLoop cfg rs r1.1
        (r2.1, r1.2.1 ++ r2.2.1, r2.2.2)

/-- Modelled from the spec: the mic corrector script is not among the source
files (only the docs and CLI usage examples reference it). Zero-Light-
Preserved correction of one pixel x with flat-field value v, dark-field value
z and global scale factor s: corrected = (x - z) * (s / v). -/
def zeroLightPreserved (x z v s : ℚ) : ℚ := (x - z) * (s / v)

/-- Modelled from the spec: the global scale factor s, the mean of the
flat-field v over the field. -/
def scaleFactor (v : List ℚ) : ℚ := v.sum / (v.length : ℚ)

/-! Concrete fixtures for evaluating the embedded pipeline. -/

/-- A 2 x 2 frame of bright pixels that passes both inclusion criteria of
demoCfg (every pixel 10 > bg_lvl 5, nonzero mean 10 > 0.005 * 255). -/
def demoImg : Img2 := [[10, 10], [10, 10]]

/-- A second, distinguishable 2 x 2 frame (channel-1 plane of the two-channel
fixtures). -/
def imgB : Img2 := [[20, 20], [20, 20]]

/-- A single-wavelength curator configuration with a 4-byte budget, the
inclusion criteria scaled to the demo frames, no forced output width, and the
resize primitive instantiated by the identity on pixel data. -/
def demoCfg : Config where
  bg_lvl := 5
  bg_rel_thr := 1/3
  mean_rel_thr := 5/1000
  max_dset_size := 4
  z_strd := 1
  x_shp_out := none
  wv := [638]
  obj := "qspim_dskwd"
  outdir := "out"
  resizeFn := fun a _ => a

/-- demoCfg with both channels mapped to non-positive wavelengths (the
sentinel -1 and the out-of-band 0). -/
def demoCfgSkip : Config := { demoCfg with wv := [-1, 0] }

/-- demoCfg with two positive wavelengths, one per channel. -/
def cfgC4 : Config := { demoCfg with wv := [488, 561] }

/-- demoCfg with a forced output width equal to the demo frames' own width. -/
def cfgC7 : Config := { demoCfg with x_shp_out := some 2 }

/-- A stack of three z-slabs, each the qualifying 2 x 2 frame, dtype uint16
(itemsize 2, max 255 scaled down for the demo criteria). -/
def stkC2 : Stack := ⟨[PyArr.d2 demoImg, PyArr.d2 demoImg, PyArr.d2 demoImg], 2, 255⟩

/-- A readable single-slab stack with one qualifying frame. -/
def stkC6 : Stack := ⟨[PyArr.d2 demoImg], 2, 255⟩

/-- A filesystem with one existing wavelength folder holding two image files
(one of them upper-case) and an unrelated entry. -/
def demoFs : List String → Option (List String) := fun p =>
  if p = ["out", "qspim_dskwd_638nm"] then some ["0.tiff", "1.TIF", "notes.txt"]
  else none

/-! The claims. -/

/-- C3: Zero-Light-Preserved correction computes
corrected = (x - z) * (s / v) per pixel, so a pixel whose value equals the
local dark-field (x = z) is mapped to exactly 0, whatever the flat-field
value (also v = 0, where the rational s / v is 0) and whatever the scale. -/
theorem c3_zero_light_preserved_maps_dark_to_zero (x z v s : ℚ) (h : x = z) :
    zeroLightPreserved x z v s = 0 := by
  simp [zeroLightPreserved, h]

/-- Witness for C3 at x = z = 7 with flat-field value 2 and the scale factor
of the field [2, 4]. -/
theorem c3_witness :
    (7 : ℚ) = 7 ∧ zeroLightPreserved 7 7 2 (scaleFactor [2, 4]) = 0 :=
  ⟨rfl, c3_zero_light_preserved_maps_dark_to_zero 7 7 2 (scaleFactor [2, 4]) rfl⟩

/-- C9: a slice with no nonzero pixels never passes the inclusion test: the
nonzero-pixel selection is empty, np.mean of it is NaN (a RuntimeWarning, not
a crash), every comparison against NaN is False, and the conjunction fails,
so the slice is rejected whatever the thresholds. -/
theorem c9_all_zero_slice_rejected (cfg : Config) (img_max : ℚ) (a : Img2)
    (_hsz : 0 < npSize a) (hz : ∀ row ∈ a, ∀ p ∈ row, p = 0) :
    inclTest cfg img_max a = false := by
  have hnz : nonzeroPixels a = [] := by
    unfold nonzeroPixels
    rw [List.flatten_eq_nil_iff]
    intro l hl
    rcases List.mem_map.mp hl with ⟨row, hrow, rfl⟩
    rw [List.filter_eq_nil_iff]
    intro p hp
    simp [hz row hrow p hp]
  simp [inclTest, hnz, npMean]

/-- Witness for C9 at a 2 x 2 all-zero slice. -/
theorem c9_witness :
    0 < npSize [[0, 0], [0, 0]] ∧
      inclTest demoCfg 255 [[0, 0], [0, 0]] = false :=
  ⟨by decide, c9_all_zero_slice_rejected demoCfg 255 [[0, 0], [0, 0]]
    (by decide) (by decide)⟩

/-- C10: a channel whose wavelength entry is not strictly positive — the
sentinel -1, but equally 0 or any negative value — is skipped whole by the
guard wv[c] > 0: no file is written, no exception is raised, the slc
variable, every slice counter and every byte total (its own channel's and
every other channel's) are unchanged, and the loop does not break. -/
theorem c10_nonpositive_wavelength_skipped
    (cfg : Config) (itemsize : ℕ) (img_max : ℚ) (c : ℕ) (slc : PyArr)
    (st : ExpState) (w : ℤ)
    (hw : cfg.wv[c]? = some w) (hnp : w ≤ 0) :
    channelStep cfg itemsize img_max c slc st = .ok (slc, st, [], false) := by
  simp [channelStep, hw, not_lt.mpr hnp]

/-- Witness for C10 at the sentinel -1 (channel 0) and at 0 (channel 1). -/
theorem c10_witness :
    channelStep demoCfgSkip 2 255 0 (PyArr.d3 [demoImg, imgB]) ⟨[0, 0], [0, 0]⟩ =
      .ok (PyArr.d3 [demoImg, imgB], ⟨[0, 0], [0, 0]⟩, [], false) ∧
    channelStep demoCfgSkip 2 255 1 (PyArr.d3 [demoImg, imgB]) ⟨[0, 0], [0, 0]⟩ =
      .ok (PyArr.d3 [demoImg, imgB], ⟨[0, 0], [0, 0]⟩, [], false) :=
  ⟨c10_nonpositive_wavelength_skipped demoCfgSkip 2 255 0 _ _ (-1) (by decide) (by decide),
   c10_nonpositive_wavelength_skipped demoCfgSkip 2 255 1 _ _ 0 (by decide) (by decide)⟩

/-- C6 counterexample: a batch whose first stack file is unreadable
(tiff.imread raises) followed by a readable stack holding a qualifying slice.
The loop has no exception handler, so the run ends at once with the read
error and the second stack is never processed (its counter stays 0), while
the claim demands the bad stack be skipped and the good one exported: running
the good stack alone exports its slice. -/
theorem c6_counterexample :
    stacksLoop demoCfg [Except.error "unreadable stack file", Except.ok stkC6]
        ⟨[0], [0]⟩ =
      (⟨[0], [0]⟩, [], some "unreadable stack file") ∧
    (stacksLoop demoCfg [Except.ok stkC6] ⟨[0], [0]⟩).1.num_slc = [1] := by
  constructor
  · rfl
  · norm_num [stacksLoop, stackStep, zLoop, zIndices, zStep, channelLoop,
      channelStep, addChannelAxis, shape0, index3, inclTest, countGtLvl,
      npSize, npMean, nonzeroPixels, outFrame, mkWavedirs, sizeBreak, npAll,
      demoCfg, demoImg, stkC6]

/-- C6 amended: an unreadable or malformed stack file aborts the whole run,
not just that stack: the first failed read ends the batch loop immediately
with that error, whatever stacks follow, and no later stack is processed. -/
theorem c6_read_error_aborts_run (cfg : Config) (e : String)
    (rest : List (Except String Stack)) (st : ExpState) :
    stacksLoop cfg (Except.error e :: rest) st = (st, [], some e) := rfl

/-- C1: the per-slice export decision. With the channel guard passed (w > 0),
the channel plane in range and the wavelength folder defined, the step
raises nothing, writes a file iff the inclusion test holds, and a failing
slice is neither written nor counted (both accumulators unchanged); and the
Boolean test holds iff both spec criteria do: the fraction of pixels strictly
above bg_lvl exceeds bg_rel_thr, and the nonzero pixels are nonempty with
mean above mean_rel_thr * dtype_max. -/
theorem c1_export_iff_criteria (cfg : Config) (itemsize : ℕ) (img_max : ℚ)
    (c : ℕ) (chans : List Img2) (a : Img2) (st : ExpState) (w : ℤ)
    (wd : List String)
    (hw : cfg.wv[c]? = some w) (hpos : 0 < w)
    (hc : chans[c]? = some a)
    (hwd : (mkWavedirs cfg.outdir cfg.obj cfg.wv)[c]? = some wd) :
    (match channelStep cfg itemsize img_max c (PyArr.d3 chans) st with
     | .ok (_, st2, ws, _) =>
         (ws ≠ [] ↔ inclTest cfg img_max a = true) ∧
         (inclTest cfg img_max a = false → st2 = st ∧ ws = [])
     | .error _ => False) ∧
    (inclTest cfg img_max a = true ↔
      ((countGtLvl a cfg.bg_lvl : ℚ) / (npSize a : ℚ) > cfg.bg_rel_thr ∧
       nonzeroPixels a ≠ [] ∧
       (nonzeroPixels a).sum / ((nonzeroPixels a).length : ℚ) >
         cfg.mean_rel_thr * img_max)) := by
  constructor
  · by_cases hI : inclTest cfg img_max a = true
    · simp [channelStep, hw, hpos, index3, hc, hwd, hI]
    · rw [Bool.not_eq_true] at hI
      simp [channelStep, hw, hpos, index3, hc, hwd, hI]
  · by_cases hn : nonzeroPixels a = []
    · simp [inclTest, hn, npMean]
    · have hlen : (nonzeroPixels a).length ≠ 0 :=
        fun h => hn (List.length_eq_zero.mp h)
      simp [inclTest, npMean, hlen, hn]

/-- Witness for C1 at the single-channel demo configuration. -/
theorem c1_witness :
    (match channelStep demoCfg 2 255 0 (PyArr.d3 [demoImg]) ⟨[0], [0]⟩ with
     | .ok (_, st2, ws, _) =>
         (ws ≠ [] ↔ inclTest demoCfg 255 demoImg = true) ∧
         (inclTest demoCfg 255 demoImg = false →
            st2 = (⟨[0], [0]⟩ : ExpState) ∧ ws = [])
     | .error _ => False) ∧
    (inclTest demoCfg 255 demoImg = true ↔
      ((countGtLvl demoImg demoCfg.bg_lvl : ℚ) / (npSize demoImg : ℚ) >
          demoCfg.bg_rel_thr ∧
       nonzeroPixels demoImg ≠ [] ∧
       (nonzeroPixels demoImg).sum / ((nonzeroPixels demoImg).length : ℚ) >
         demoCfg.mean_rel_thr * 255)) :=
  c1_export_iff_criteria demoCfg 2 255 0 [demoImg] demoImg ⟨[0], [0]⟩ 638
    ["out", "qspim_dskwd_638nm"] (by decide) (by decide) (by decide) (by decide)

/-- Helper: when no wavelength is the sentinel -1, the wavedirs list aligns
with the channel indices and entry c is the folder of channel c's own
wavelength. -/
theorem mkWavedirs_getElem_of_no_sentinel (outdir obj : String) (wv : List ℤ)
    (c : ℕ) (w : ℤ) (hall : ∀ x ∈ wv, x ≠ -1) (hw : wv[c]? = some w) :
    (mkWavedirs outdir obj wv)[c]? =
      some [outdir, obj ++ "_" ++ toString w ++ "nm"] := by
  unfold mkWavedirs
  rw [List.filter_eq_self.mpr (fun x hx => decide_eq_true (hall x hx)),
    List.getElem?_map, hw]
  rfl

/-- C5 counterexample: the directory the exports actually land in is the flat
outdir/(objective_wavelengthnm) folder, not the spec's nested
outdir/objective/wavelength layout. -/
theorem c5_counterexample :
    mkWavedirs "out" "qspim_dskwd" [638] ≠
      specWavedirs "out" "qspim_dskwd" [638] := by
  decide

/-- C5 amended: with every channel's wavelength non-sentinel (so wavedirs[c]
is channel c's own folder), an accepted slice is written as one compressed
TIFF at outdir/(obj_wnm)/(num_slc[c]).tiff, after which num_slc[c] grows by
exactly 1 and the written frame's byte count (itemsize times pixel count) is
added to ds_size[c]; the step then evaluates the stop check and raises
nothing. -/
theorem c5_export_write_flat_layout (cfg : Config) (itemsize : ℕ)
    (img_max : ℚ) (c : ℕ) (chans : List Img2) (a : Img2) (st : ExpState)
    (w : ℤ)
    (hall : ∀ x ∈ cfg.wv, x ≠ -1)
    (hw : cfg.wv[c]? = some w) (hpos : 0 < w)
    (hc : chans[c]? = some a)
    (hincl : inclTest cfg img_max a = true) :
    channelStep cfg itemsize img_max c (PyArr.d3 chans) st =
      .ok (PyArr.d2 a,
        ⟨st.num_slc.set c (st.num_slc.getD c 0 + 1),
         st.ds_size.set c (st.ds_size.getD c 0 +
           (((outFrame cfg itemsize a).2 * npSize (outFrame cfg itemsize a).1 : ℕ) : ℚ))⟩,
        [⟨[cfg.outdir, cfg.obj ++ "_" ++ toString w ++ "nm",
           toString (st.num_slc.getD c 0) ++ ".tiff"],
          (outFrame cfg itemsize a).1, (outFrame cfg itemsize a).2⟩],
        sizeBreak
          (st.ds_size.set c (st.ds_size.getD c 0 +
            (((outFrame cfg itemsize a).2 * npSize (outFrame cfg itemsize a).1 : ℕ) : ℚ)))
          cfg.max_dset_size) := by
  have hwd := mkWavedirs_getElem_of_no_sentinel cfg.outdir cfg.obj cfg.wv c w
    hall hw
  simp [channelStep, hw, hpos, index3, hc, hwd, hincl]

/-- Helper: the demo frame passes the inclusion test of demoCfg. -/
theorem demoImg_passes_demoCfg : inclTest demoCfg 255 demoImg = true := by
  norm_num [inclTest, countGtLvl, npSize, npMean, nonzeroPixels, demoCfg,
    demoImg]

/-- Helper: the demo frame passes the inclusion test of cfgC7 (the criteria
fields are those of demoCfg). -/
theorem demoImg_passes_cfgC7 : inclTest cfgC7 255 demoImg = true := by
  norm_num [inclTest, countGtLvl, npSize, npMean, nonzeroPixels, cfgC7,
    demoCfg, demoImg]

/-- Witness for C5 at the single-channel demo configuration. -/
theorem c5_witness :
    channelStep demoCfg 2 255 0 (PyArr.d3 [demoImg]) ⟨[0], [0]⟩ =
      .ok (PyArr.d2 demoImg,
        ⟨(([0] : List ℕ)).set 0 ((([0] : List ℕ)).getD 0 0 + 1),
         (([0] : List ℚ)).set 0 ((([0] : List ℚ)).getD 0 0 +
           (((outFrame demoCfg 2 demoImg).2 * npSize (outFrame demoCfg 2 demoImg).1 : ℕ) : ℚ))⟩,
        [⟨[demoCfg.outdir, demoCfg.obj ++ "_" ++ toString (638 : ℤ) ++ "nm",
           toString ((([0] : List ℕ)).getD 0 0) ++ ".tiff"],
          (outFrame demoCfg 2 demoImg).1, (outFrame demoCfg 2 demoImg).2⟩],
        sizeBreak
          ((([0] : List ℚ)).set 0 ((([0] : List ℚ)).getD 0 0 +
            (((outFrame demoCfg 2 demoImg).2 * npSize (outFrame demoCfg 2 demoImg).1 : ℕ) : ℚ)))
          demoCfg.max_dset_size) :=
  c5_export_write_flat_layout demoCfg 2 255 0 [demoImg] demoImg ⟨[0], [0]⟩ 638
    (by decide) (by decide) (by decide) (by decide) demoImg_passes_demoCfg

/-- C7 counterexample: the configured output width (2) equals the demo
slice's own width (2), yet the step still routes the slice through resize:
the written array is float64 (itemsize 8, 32 bytes accounted for the 2 x 2
frame), not the unmodified 2-byte-per-pixel original (which would add 8
bytes). -/
theorem c7_counterexample :
    cfgC7.x_shp_out = some 2 ∧ (demoImg.headD []).length = 2 ∧
    (channelStep cfgC7 2 255 0 (PyArr.d3 [demoImg]) ⟨[0], [0]⟩).map
        (fun r => (r.2.1.ds_size, r.2.2.1.map WriteEvent.itemsize)) =
      Except.ok ([32], [8]) := by
  refine ⟨rfl, rfl, ?_⟩
  norm_num [channelStep, inclTest, countGtLvl, npSize, npMean, nonzeroPixels,
    outFrame, mkWavedirs, sizeBreak, npAll, index3, Except.map, cfgC7,
    demoCfg, demoImg]

/-- C7 amended: an accepted slice is passed through the anti-aliased,
range-preserving resize iff a target output width is configured at all — the
code never compares that width with the slice's own, so an equal width is
resized too (producing a float64 frame, itemsize 8); only with no configured
width is the slice written unmodified with the stack's element size. -/
theorem c7_resize_iff_width_configured (cfg : Config) (itemsize : ℕ)
    (img_max : ℚ) (c : ℕ) (chans : List Img2) (a : Img2) (st : ExpState)
    (w : ℤ) (wd : List String)
    (hw : cfg.wv[c]? = some w) (hpos : 0 < w)
    (hc : chans[c]? = some a)
    (hwd : (mkWavedirs cfg.outdir cfg.obj cfg.wv)[c]? = some wd)
    (hincl : inclTest cfg img_max a = true) :
    (match channelStep cfg itemsize img_max c (PyArr.d3 chans) st with
     | .ok (_, _, ws, _) =>
         (cfg.x_shp_out = none →
            ws.map (fun ev => (ev.frame, ev.itemsize)) = [(a, itemsize)]) ∧
         (∀ xo, cfg.x_shp_out = some xo →
            ws.map (fun ev => (ev.frame, ev.itemsize)) =
              [(cfg.resizeFn a xo, 8)])
     | .error _ => False) := by
  simp [channelStep, hw, hpos, index3, hc, hwd, hincl]
  constructor
  · intro hx
    simp [outFrame, hx]
  · intro xo hx
    simp [outFrame, hx]

/-- Witness for C7 at cfgC7 (configured width 2 equal to the slice width). -/
theorem c7_witness :
    (match channelStep cfgC7 2 255 0 (PyArr.d3 [demoImg]) ⟨[0], [0]⟩ with
     | .ok (_, _, ws, _) =>
         (cfgC7.x_shp_out = none →
            ws.map (fun ev => (ev.frame, ev.itemsize)) = [(demoImg, 2)]) ∧
         (∀ xo, cfgC7.x_shp_out = some xo →
            ws.map (fun ev => (ev.frame, ev.itemsize)) =
              [(cfgC7.resizeFn demoImg xo, 8)])
     | .error _ => False) :=
  c7_resize_iff_width_configured cfgC7 2 255 0 [demoImg] demoImg ⟨[0], [0]⟩
    638 ["out", "qspim_dskwd_638nm"] (by decide) (by decide) (by decide)
    (by decide) demoImg_passes_cfgC7

/-- C8: the SliceCounter semantics. First, initialization: for a channel
whose wavelength is not the sentinel, num_slc[c] starts at the number of
entries of the channel's wavelength folder whose lower-cased suffix is .tif
or .tiff when that folder already exists, and at 0 when it does not (the
resume semantics — nothing resets it). Second, the run: an exporting step
writes the file named with the pre-increment counter value followed by
".tiff" and increases num_slc[c] by exactly 1 (other entries untouched by
List.set), while a non-exporting step leaves every counter unchanged. -/
theorem c8_slice_counter_resume_and_increment (outdir obj : String)
    (wv : List ℤ) (fs : List String → Option (List String))
    (cfg : Config) (itemsize : ℕ) (img_max : ℚ) (c : ℕ)
    (chans : List Img2) (a : Img2) (st : ExpState) (w : ℤ) (wd : List String)
    (hw : wv[c]? = some w) (hs : w ≠ -1)
    (hcw : cfg.wv[c]? = some w) (hpos : 0 < w)
    (hc : chans[c]? = some a)
    (hwd : (mkWavedirs cfg.outdir cfg.obj cfg.wv)[c]? = some wd) :
    (initNumSlc outdir obj wv fs)[c]? =
      some ((fs [outdir, obj ++ "_" ++ toString w ++ "nm"]).elim 0
        (fun files => (files.filter isTiffName).length)) ∧
    (match channelStep cfg itemsize img_max c (PyArr.d3 chans) st with
     | .ok (_, st2, ws, _) =>
         (inclTest cfg img_max a = true →
            st2.num_slc = st.num_slc.set c (st.num_slc.getD c 0 + 1) ∧
            ws.map WriteEvent.path =
              [wd ++ [toString (st.num_slc.getD c 0) ++ ".tiff"]]) ∧
         (inclTest cfg img_max a = false → st2.num_slc = st.num_slc)
     | .error _ => False) := by
  constructor
  · unfold initNumSlc
    rw [List.getElem?_map, hw]
    simp only [Option.map_some', hs, ne_eq, not_false_eq_true, if_true]
    cases fs [outdir, obj ++ "_" ++ toString w ++ "nm"] <;> rfl
  · by_cases hI : inclTest cfg img_max a = true
    · simp [channelStep, hcw, hpos, index3, hc, hwd, hI]
    · rw [Bool.not_eq_true] at hI
      simp [channelStep, hcw, hpos, index3, hc, hwd, hI]

/-- Witness for C8: the demo filesystem has the 638 nm folder with two image
files (one mixed-case) and one unrelated entry, and the demo step exports. -/
theorem c8_witness :
    (initNumSlc "out" "qspim_dskwd" [638] demoFs)[0]? =
      some ((demoFs ["out", "qspim_dskwd" ++ "_" ++ toString (638 : ℤ) ++ "nm"]).elim 0
        (fun files => (files.filter isTiffName).length)) ∧
    (match channelStep demoCfg 2 255 0 (PyArr.d3 [demoImg]) ⟨[0], [0]⟩ with
     | .ok (_, st2, ws, _) =>
         (inclTest demoCfg 255 demoImg = true →
            st2.num_slc = ([0] : List ℕ).set 0 (([0] : List ℕ).getD 0 0 + 1) ∧
            ws.map WriteEvent.path =
              [["out", "qspim_dskwd_638nm"] ++
                [toString (([0] : List ℕ).getD 0 0) ++ ".tiff"]]) ∧
         (inclTest demoCfg 255 demoImg = false →
            st2.num_slc = ([0] : List ℕ))
     | .error _ => False) :=
  c8_slice_counter_resume_and_increment "out" "qspim_dskwd" [638] demoFs
    demoCfg 2 255 0 [demoImg] demoImg ⟨[0], [0]⟩ 638
    ["out", "qspim_dskwd_638nm"] (by decide) (by decide) (by decide)
    (by decide) (by decide) (by decide)

/-- C2 at the failing input: budget max_dset_size = 4 bytes, one stack of
three qualifying 8-byte slices on a single wavelength. After the first export
ds_size[0] = 8 already exceeds the budget, yet all three slices get exported
(24 bytes, over budget by two further slices), because the stop check
compares the boolean np.all(ds_size) — 1 or 0 — with max_dset_size and so
never fires for any budget above 1: sizeBreak is false even on a 100-byte
total against the 4-byte budget. -/
theorem c2_budget_never_enforced :
    (stacksLoop demoCfg [Except.ok stkC2] ⟨[0], [0]⟩).1 =
      (⟨[3], [24]⟩ : ExpState) ∧
    (stacksLoop demoCfg [Except.ok stkC2] ⟨[0], [0]⟩).2.1.length = 3 ∧
    (stacksLoop demoCfg [Except.ok stkC2] ⟨[0], [0]⟩).2.2 = none ∧
    sizeBreak [100] 4 = false := by
  refine ⟨?_, ?_, ?_, by norm_num [sizeBreak, npAll]⟩ <;>
    norm_num [stacksLoop, stackStep, zLoop, zIndices, zStep, channelLoop,
      channelStep, addChannelAxis, shape0, index3, inclTest, countGtLvl,
      npSize, npMean, nonzeroPixels, outFrame, mkWavedirs, sizeBreak, npAll,
      List.range_succ, demoCfg, demoImg, stkC2]

/-- C4 at the failing input: a z-slab with two channels, both wavelengths
positive. Channel 0 is extracted and exported, but the reassignment
slc = slc[c, :, :] has replaced the 3-D block held by the loop variable with
the 2-D channel-0 frame, so extracting channel 1 raises IndexError (too many
indices) and aborts the stack: channel 1's own plane (imgB) is never tested
or exported, where the claim promises each non-sentinel channel its own
plane. -/
theorem c4_second_channel_hits_index_error :
    (zStep cfgC4 2 255 (PyArr.d3 [demoImg, imgB]) ⟨[0, 0], [0, 0]⟩).1.num_slc =
      [1, 0] ∧
    (zStep cfgC4 2 255 (PyArr.d3 [demoImg, imgB]) ⟨[0, 0], [0, 0]⟩).2.2 =
      some "IndexError: too many indices for 2-D array" := by
  constructor <;>
    norm_num [zStep, channelLoop, channelStep, addChannelAxis, shape0, index3,
      inclTest, countGtLvl, npSize, npMean, nonzeroPixels, outFrame,
      mkWavedirs, sizeBreak, npAll, cfgC4, demoCfg, demoImg, imgB]

end Mic
